import Mathlib

/-!
Shallow embedding of `check_hycu_vm_backup_v2.1.py`, a Centreon/Nagios
monitoring plugin for the HYCU backup appliance REST API.  Pure decision
logic (argument validation, threshold validation, per-check severity
classification, entity-name resolution) is translated into executable Lean
definitions; network calls are modelled by passing the decoded JSON listing
(or `none` for a failed call) as an argument.
-/

namespace Hycu

/-- Process exit codes for monitoring tools. -/
def EXIT_OK : Nat := 0

def EXIT_WARNING : Nat := 1

def EXIT_CRITICAL : Nat := 2

def EXIT_UNKNOWN : Nat := 3

/-- The flat list of the 16 valid check-type tokens (`ALL_CHECK_TYPES`). -/
def ALL_CHECK_TYPES : List String :=
  ["vm", "vmid", "target", "archive",
   "policy", "policy-advanced",
   "manager", "jobs", "license", "version",
   "shares", "buckets",
   "backup-validation", "unassigned",
   "port"]

/-- Check types that do not require the `-n` argument (`types_without_vmtarget`). -/
def types_without_vmtarget : List String :=
  ["jobs", "license", "version", "backup-validation", "shares", "buckets", "unassigned"]

/-- Check types that do not require the API token (`types_without_token`). -/
def types_without_token : List String :=
  ["port"]

/-- Command-line option values as parsed by optparse: each is `none` when the
flag was not supplied. -/
structure CliOptions where
  apitoken : Option String
  host : Option String
  vmtarget : Option String
  scantype : Option String
deriving DecidableEq, Repr

/-- Python truthiness of an optional string: `None` and the empty string are
falsy, every other string is truthy. -/
def truthy : Option String → Bool
  | none => false
  | some s => s ≠ ""

/-- Membership test `options.scantype in l` where `scantype` may be `None`. -/
def scantypeIn (o : CliOptions) (l : List String) : Bool :=
  match o.scantype with
  | some s => l.contains s
  | none => false

/-- Required-argument validation of `parse_arguments` (the branch on
`types_without_vmtarget` / `types_without_token`, including the dummy
`vmtarget` defaulting), returning the exit code on failure. -/
def validateRequiredArgs (o : CliOptions) : Except Nat CliOptions :=
  if scantypeIn o types_without_vmtarget then
    if scantypeIn o types_without_token then
      if truthy o.host && truthy o.scantype then
        if truthy o.vmtarget then Except.ok o
        else Except.ok { o with vmtarget := o.scantype }
      else Except.error EXIT_UNKNOWN
    else
      if truthy o.apitoken && truthy o.host && truthy o.scantype then
        if truthy o.vmtarget then Except.ok o
        else Except.ok { o with vmtarget := o.scantype }
      else Except.error EXIT_UNKNOWN
  else
    if truthy o.apitoken && truthy o.host && truthy o.vmtarget && truthy o.scantype then
      Except.ok o
    else Except.error EXIT_UNKNOWN

/-- Argument validation of `parse_arguments` up to the check-type validity
test: required arguments first, then `scantype in ALL_CHECK_TYPES`. -/
def parseArgumentsValidate (o : CliOptions) : Except Nat CliOptions :=
  match validateRequiredArgs o with
  | Except.error e => Except.error e
  | Except.ok o2 =>
      if scantypeIn o2 ALL_CHECK_TYPES then Except.ok o2
      else Except.error EXIT_UNKNOWN

/-- Threshold validation (`validate_thresholds`): thresholds must be
non-negative, and ordered `critical >= warning` (normal) or
`critical <= warning` (inverted); on failure the process exits with
`EXIT_UNKNOWN`, modelled as `Except.error`. -/
def validate_thresholds (warning critical : Int) (inverted : Bool) : Except Nat Bool :=
  if warning < 0 ∨ critical < 0 then Except.error EXIT_UNKNOWN
  else if inverted then
    if critical > warning then Except.error EXIT_UNKNOWN else Except.ok true
  else
    if critical < warning then Except.error EXIT_UNKNOWN else Except.ok true

/-- Substring test on character lists: does the haystack contain the needle
contiguously (Python `needle in haystack`)? -/
def charListContains (needle : List Char) : List Char → Bool
  | [] => needle.isEmpty
  | c :: cs => needle.isPrefixOf (c :: cs) || charListContains needle cs

/-- Python substring containment `needle in haystack` on strings. -/
def strContains (haystack needle : String) : Bool :=
  charListContains needle.toList haystack.toList

/-- Python `str.lower()` (the API strings involved are ASCII). -/
def strLower (s : String) : String :=
  String.mk (s.data.map Char.toLower)

/-- Python `str.upper()` (the API strings involved are ASCII). -/
def strUpper (s : String) : String :=
  String.mk (s.data.map Char.toUpper)

/-- One entry of the `/jobs` listing; every field is read with `.get`, so each
is optional. -/
structure JobEntity where
  status : Option String
  type : Option String
  taskName : Option String
deriving DecidableEq, Repr

/-- Per-status counters accumulated by `check_jobs`. -/
structure JobStats where
  ok : Nat
  warning : Nat
  error : Nat
  running : Nat
  other : Nat
deriving DecidableEq, Repr

/-- One step of the `check_jobs` counting loop over `data['entities']`. -/
def countJob (s : JobStats) (job : JobEntity) : JobStats :=
  let status := strUpper (job.status.getD "UNKNOWN")
  if status = "OK" then { s with ok := s.ok + 1 }
  else if status = "WARNING" then { s with warning := s.warning + 1 }
  else if status = "ERROR" then { s with error := s.error + 1 }
  else if status = "RUNNING" ∨ status = "QUEUED" ∨ status = "PENDING" then
    { s with running := s.running + 1 }
  else { s with other := s.other + 1 }

/-- Status counters of `check_jobs` over the whole listing. -/
def jobsStats (entities : List JobEntity) : JobStats :=
  entities.foldl countJob ⟨0, 0, 0, 0, 0⟩

/-- The `failed` aggregate of `check_jobs`: `warning + error`. -/
def jobsFailed (entities : List JobEntity) : Nat :=
  (jobsStats entities).warning + (jobsStats entities).error

/-- Severity decision of `check_jobs` (thresholds are CLI integers). -/
def check_jobs (entities : List JobEntity) (warning_threshold critical_threshold : Int) : Nat :=
  let failed := jobsFailed entities
  if (failed : Int) ≥ critical_threshold then EXIT_CRITICAL
  else if (failed : Int) ≥ warning_threshold then EXIT_WARNING
  else EXIT_OK

/-- The detailed policy record fetched by `check_policy_advanced`; every
counter is read with `.get(key, 0)`. -/
structure PolicyRecord where
  uncompliantVmsCount : Option Nat
  uncompliantSharesCount : Option Nat
  uncompliantAppsCount : Option Nat
  uncompliantBucketsCount : Option Nat
  uncompliantVgsCount : Option Nat
deriving DecidableEq, Repr

/-- The `total_uncompliant` aggregate of `check_policy_advanced`. -/
def policyUncompliant (p : PolicyRecord) : Nat :=
  p.uncompliantVmsCount.getD 0 + p.uncompliantSharesCount.getD 0 +
  p.uncompliantAppsCount.getD 0 + p.uncompliantBucketsCount.getD 0 +
  p.uncompliantVgsCount.getD 0

/-- Severity decision of `check_policy_advanced` once the detailed policy
record has been fetched. -/
def check_policy_advanced (p : PolicyRecord) (warning_threshold critical_threshold : Int) : Nat :=
  let uncompliant_count := policyUncompliant p
  if (uncompliant_count : Int) ≥ critical_threshold then EXIT_CRITICAL
  else if (uncompliant_count : Int) ≥ warning_threshold then EXIT_WARNING
  else EXIT_OK

/-- Client-side filter of `check_backup_validation`: the job type contains
`VALIDATION` or `RESTORE_VALIDATE`. -/
def isValidationJob (job : JobEntity) : Bool :=
  let job_type := job.type.getD ""
  strContains job_type "VALIDATION" || strContains job_type "RESTORE_VALIDATE"

/-- Counters accumulated by `check_backup_validation`. -/
structure ValidationStats where
  total : Nat
  ok : Nat
  warning : Nat
  error : Nat
deriving DecidableEq, Repr

/-- One step of the `check_backup_validation` counting loop. -/
def countValidation (s : ValidationStats) (job : JobEntity) : ValidationStats :=
  if isValidationJob job then
    let status := strUpper (job.status.getD "UNKNOWN")
    if status = "OK" then { s with total := s.total + 1, ok := s.ok + 1 }
    else if status = "WARNING" then { s with total := s.total + 1, warning := s.warning + 1 }
    else if status = "ERROR" then { s with total := s.total + 1, error := s.error + 1 }
    else { s with total := s.total + 1 }
  else s

/-- Validation counters over the whole jobs listing. -/
def validationStats (entities : List JobEntity) : ValidationStats :=
  entities.foldl countValidation ⟨0, 0, 0, 0⟩

/-- The `failed` aggregate of `check_backup_validation`: `warning + error`. -/
def validationFailed (entities : List JobEntity) : Nat :=
  (validationStats entities).warning + (validationStats entities).error

/-- Severity decision of `check_backup_validation`. -/
def check_backup_validation (entities : List JobEntity)
    (warning_threshold critical_threshold : Int) : Nat :=
  let failed := validationFailed entities
  if (failed : Int) ≥ critical_threshold then EXIT_CRITICAL
  else if (failed : Int) ≥ warning_threshold then EXIT_WARNING
  else EXIT_OK

/-- One entry of the `/shares`, `/vms`, `/applications` or `/volumegroups`
listings, restricted to the fields the handlers read with `.get`; a JSON
object simply lacks the fields the endpoint does not provide. -/
structure ApiEntity where
  protocolTypeList : Option (List String)
  status : Option String
  compliancyStatus : Option String
  protectionGroupName : Option String
  vmName : Option String
  shareName : Option String
  name : Option String
deriving DecidableEq, Repr

/-- Protocol filter of `check_shares`: `any(p in ['NFS', 'SMB'] for p in protocols)`. -/
def isNfsSmb (e : ApiEntity) : Bool :=
  (e.protocolTypeList.getD []).any (fun p => p = "NFS" ∨ p = "SMB")

/-- Protocol filter of `check_buckets`: `'S3' in protocols`. -/
def isS3 (e : ApiEntity) : Bool :=
  (e.protocolTypeList.getD []).contains "S3"

/-- Counters accumulated by `check_shares` and `check_buckets`. -/
structure ShareStats where
  total : Nat
  protectedCount : Nat
  compliant : Nat
  non_compliant : Nat
  unprotected : Nat
deriving DecidableEq, Repr

/-- Status/compliance counting applied by `check_shares` and `check_buckets`
to one entry that passed the protocol filter: entries whose status is neither
`PROTECTED` nor `UNPROTECTED` are excluded from all totals. -/
def countShareStatus (s : ShareStats) (e : ApiEntity) : ShareStats :=
  let status := e.status.getD "UNKNOWN"
  let compliancy_status := e.compliancyStatus.getD "UNKNOWN"
  if status = "PROTECTED" then
    if compliancy_status = "GREEN" then
      { s with total := s.total + 1, protectedCount := s.protectedCount + 1,
               compliant := s.compliant + 1 }
    else if compliancy_status = "RED" ∨ compliancy_status = "YELLOW" then
      { s with total := s.total + 1, protectedCount := s.protectedCount + 1,
               non_compliant := s.non_compliant + 1 }
    else
      { s with total := s.total + 1, protectedCount := s.protectedCount + 1 }
  else if status = "UNPROTECTED" then
    { s with total := s.total + 1, unprotected := s.unprotected + 1 }
  else s

/-- One step of the `check_shares` loop: skip non-NFS/SMB entries, then count. -/
def countShare (s : ShareStats) (e : ApiEntity) : ShareStats :=
  if isNfsSmb e then countShareStatus s e else s

/-- One step of the `check_buckets` loop: skip non-S3 entries, then count. -/
def countBucket (s : ShareStats) (e : ApiEntity) : ShareStats :=
  if isS3 e then countShareStatus s e else s

/-- Share counters of `check_shares` over the whole listing. -/
def sharesStats (entities : List ApiEntity) : ShareStats :=
  entities.foldl countShare ⟨0, 0, 0, 0, 0⟩

/-- Bucket counters of `check_buckets` over the whole listing. -/
def bucketsStats (entities : List ApiEntity) : ShareStats :=
  entities.foldl countBucket ⟨0, 0, 0, 0, 0⟩

/-- Severity decision of `check_shares`, driven by the non-compliant count. -/
def check_shares (entities : List ApiEntity) (warning_threshold critical_threshold : Int) : Nat :=
  let stats := sharesStats entities
  if (stats.non_compliant : Int) ≥ critical_threshold then EXIT_CRITICAL
  else if (stats.non_compliant : Int) ≥ warning_threshold then EXIT_WARNING
  else EXIT_OK

/-- Severity decision of `check_buckets`, driven by the non-compliant count. -/
def check_buckets (entities : List ApiEntity) (warning_threshold critical_threshold : Int) : Nat :=
  let stats := bucketsStats entities
  if (stats.non_compliant : Int) ≥ critical_threshold then EXIT_CRITICAL
  else if (stats.non_compliant : Int) ≥ warning_threshold then EXIT_WARNING
  else EXIT_OK

/-- Unassigned test of `check_unassigned`: `not protection_group`, true for an
absent field and for the empty string. -/
def isUnassigned (protection_group : Option String) : Bool :=
  match protection_group with
  | none => true
  | some s => s = ""

/-- VM contribution of `check_unassigned` over the `/vms` listing. -/
def countUnassignedVms (entities : List ApiEntity) : Nat :=
  (entities.filter (fun vm => isUnassigned vm.protectionGroupName)).length

/-- Share contribution of `check_unassigned` over the `/shares` listing
(NFS/SMB entries only). -/
def countUnassignedShares (entities : List ApiEntity) : Nat :=
  (entities.filter (fun e => isNfsSmb e && isUnassigned e.protectionGroupName)).length

/-- Bucket contribution of `check_unassigned` (S3 entries only). -/
def countUnassignedBuckets (entities : List ApiEntity) : Nat :=
  (entities.filter (fun e => isS3 e && isUnassigned e.protectionGroupName)).length

/-- Application or volume-group contribution of `check_unassigned`. -/
def countUnassignedPlain (entities : List ApiEntity) : Nat :=
  (entities.filter (fun e => isUnassigned e.protectionGroupName)).length

/-- Per-category unassigned counts of `check_unassigned`. -/
structure UnassignedStats where
  vms : Nat
  shares : Nat
  buckets : Nat
  apps : Nat
  vgs : Nat
deriving DecidableEq, Repr

/-- Counting phase of `check_unassigned`.  Each of the four fetches is
wrapped in its own `try/except`, modelled as an `Option` listing (`none` for
a failed call, contributing zero).  The buckets block performs no fetch of
its own: it iterates the `data` variable left by the shares fetch, which on a
shares-fetch failure still holds the VMs response (or nothing at all when
that failed too, in which case the `NameError` is caught and the
contribution is zero). -/
def unassignedStats (vmsResp sharesResp appsResp vgsResp : Option (List ApiEntity)) :
    UnassignedStats :=
  let vms := match vmsResp with
    | some l => countUnassignedVms l
    | none => 0
  let shares := match sharesResp with
    | some l => countUnassignedShares l
    | none => 0
  let bucketsData := match sharesResp with
    | some l => some l
    | none => vmsResp
  let buckets := match bucketsData with
    | some l => countUnassignedBuckets l
    | none => 0
  let apps := match appsResp with
    | some l => countUnassignedPlain l
    | none => 0
  let vgs := match vgsResp with
    | some l => countUnassignedPlain l
    | none => 0
  ⟨vms, shares, buckets, apps, vgs⟩

/-- Total unassigned-object count of `check_unassigned`. -/
def unassignedTotal (vmsResp sharesResp appsResp vgsResp : Option (List ApiEntity)) : Nat :=
  let st := unassignedStats vmsResp sharesResp appsResp vgsResp
  st.vms + st.shares + st.buckets + st.apps + st.vgs

/-- Severity decision and counters of `check_unassigned`. -/
def check_unassigned (vmsResp sharesResp appsResp vgsResp : Option (List ApiEntity))
    (warning_threshold critical_threshold : Int) : Nat × UnassignedStats :=
  let st := unassignedStats vmsResp sharesResp appsResp vgsResp
  let total := st.vms + st.shares + st.buckets + st.apps + st.vgs
  let exit_code :=
    if (total : Int) ≥ critical_threshold then EXIT_CRITICAL
    else if (total : Int) ≥ warning_threshold then EXIT_WARNING
    else EXIT_OK
  (exit_code, st)

/-- The license record fetched by `check_license`; `daysLeft` is read with
`.get('daysLeft', 0)`. -/
structure LicenseRecord where
  daysLeft : Option Int
deriving DecidableEq, Repr

/-- Severity decision of `check_license`: an empty listing is CRITICAL
(no license information); otherwise the countdown comparison on the first
record's `daysLeft`. -/
def check_license (entities : List LicenseRecord) (warning_days critical_days : Int) : Nat :=
  match entities with
  | [] => EXIT_CRITICAL
  | lic :: _ =>
    let days_left := lic.daysLeft.getD 0
    if days_left ≤ critical_days then EXIT_CRITICAL
    else if days_left ≤ warning_days then EXIT_WARNING
    else EXIT_OK

/-- One entry of the `/vms/{id}/backups` listing.  `status` and `type` are
indexed directly in the source (`latest_backup['status']`), so their absence
raises; the other fields are read with `.get`. -/
structure BackupEntity where
  status : Option String
  type : Option String
  vmName : Option String
  numberOfArchives : Option Nat
  numberOfFailedArchives : Option Nat
deriving DecidableEq, Repr

/-- Result of `check_archive_status`: exit code, the archive status label
interpolated into the message, and the numeric metric value. -/
structure ArchiveResult where
  exit_code : Nat
  archive_status : String
  numeric_status : Nat
deriving DecidableEq, Repr

/-- Archive classification of `check_archive_status`: `none` models the
exceptions caught at top level as UNKNOWN — the `IndexError` raised when
the listing is empty despite a positive count, and the `KeyError` raised by
the direct index `latest_backup['type']` when the field is absent. -/
def check_archive_status (backup_count : Nat) (entities : List BackupEntity) :
    Option ArchiveResult :=
  if backup_count = 0 then some ⟨EXIT_CRITICAL, "no backups", 0⟩
  else
    match entities with
    | [] => none
    | latest_backup :: _ =>
      match latest_backup.type with
      | none => none
      | some _ =>
        let archives_ok := latest_backup.numberOfArchives.getD 0
        let archives_failed := latest_backup.numberOfFailedArchives.getD 0
        if archives_failed ≥ 1 then some ⟨EXIT_CRITICAL, "FAILED", 0⟩
        else if archives_ok ≥ 1 then some ⟨EXIT_OK, "OK", 2⟩
        else some ⟨EXIT_WARNING, "MISSING", 1⟩

/-- Backup status table of `check_vm_backup` (`status_map` with its
`(EXIT_UNKNOWN, 1)` default), returning the exit code and the numeric
`backup_status` metric value. -/
def statusMapVm (backup_status : String) : Nat × Nat :=
  if backup_status = "OK" then (EXIT_OK, 2)
  else if backup_status = "WARNING" then (EXIT_WARNING, 1)
  else if backup_status = "FATAL" then (EXIT_CRITICAL, 0)
  else (EXIT_UNKNOWN, 1)

/-- Classification of `check_vm_backup`: zero backups is CRITICAL with
metric 0; otherwise the latest backup's `status` and `type` are indexed
directly (`none` models the `KeyError`/`IndexError` raised when absent) and
mapped through `statusMapVm`. -/
def check_vm_backup (backup_count : Nat) (entities : List BackupEntity) :
    Option (Nat × Nat) :=
  if backup_count = 0 then some (EXIT_CRITICAL, 0)
  else
    match entities with
    | [] => none
    | latest_backup :: _ =>
      match latest_backup.status, latest_backup.type with
      | some backup_status, some _ => some (statusMapVm backup_status)
      | _, _ => none

/-- The target object read by `check_target_health` after normalization. -/
structure TargetObj where
  name : Option String
  health : Option String
deriving DecidableEq, Repr

/-- The `/targets/{id}` response: either a one-element `entities` array or a
direct object carrying the fields itself. -/
structure TargetResponse where
  entities : Option (List TargetObj)
  name : Option String
  health : Option String
deriving DecidableEq, Repr

/-- Response-shape normalization of `check_target_health`: use
`entities[0]` when a non-empty `entities` array is present, otherwise treat
the response itself as the target object. -/
def normalizeTarget (data : TargetResponse) : TargetObj :=
  match data.entities with
  | some (t :: _) => t
  | _ => ⟨data.name, data.health⟩

/-- Health table of `check_target_health` (`health_map` with its
`(EXIT_UNKNOWN, 1)` default). -/
def healthMap (target_health : String) : Nat × Nat :=
  if target_health = "GREEN" then (EXIT_OK, 2)
  else if target_health = "GREY" then (EXIT_WARNING, 1)
  else if target_health = "RED" then (EXIT_CRITICAL, 0)
  else if target_health = "GRAY" then (EXIT_WARNING, 1)
  else (EXIT_UNKNOWN, 1)

/-- Classification of `check_target_health`: normalize the response shape,
read `health` with default `UNKNOWN`, map through the health table. -/
def check_target_health (data : TargetResponse) : Nat × Nat :=
  let target_data := normalizeTarget data
  let target_health := target_data.health.getD "UNKNOWN"
  healthMap target_health

/-- Insertion into a Python dict modelled as an insertion-ordered
association list: an existing key keeps its position and gets the new value
(last-wins), a new key is appended. -/
def dictInsert (d : List (String × String)) (k v : String) : List (String × String) :=
  if d.any (fun p => p.1 = k) then
    d.map (fun p => if p.1 = k then (k, v) else p)
  else d ++ [(k, v)]

/-- The `entity_dict` comprehension of `get_entity_uuid`: a name-to-uuid
mapping built in listing order, later duplicate names overwriting earlier
ones. -/
def buildEntityDict (entities : List (String × String)) : List (String × String) :=
  entities.foldl (fun d e => dictInsert d e.1 e.2) []

/-- Python `dict.get`: the value stored at the key, if present. -/
def dictGet (d : List (String × String)) (k : String) : Option String :=
  (d.find? (fun p => p.1 = k)).map (fun p => p.2)

/-- The case-insensitive fallback loop of `get_entity_uuid`: the first entry
in the mapping's iteration order whose lowercased name matches. -/
def ciScan (d : List (String × String)) (name_lower : String) : Option String :=
  (d.find? (fun p => strLower p.1 = name_lower)).map (fun p => p.2)

/-- Entity resolution of `get_entity_uuid` over the decoded listing (pairs of
name-field value and uuid): exact lookup first — guarded by Python
truthiness, so an empty-string uuid falls through — then the
case-insensitive scan, then `None`. -/
def get_entity_uuid (entities : List (String × String)) (name : String) : Option String :=
  let entity_dict := buildEntityDict entities
  match dictGet entity_dict name with
  | some uuid => if uuid ≠ "" then some uuid else ciScan entity_dict (strLower name)
  | none => ciScan entity_dict (strLower name)

/-- Status filter shared by `check_shares` and `check_buckets`: only entries
whose `status` is `PROTECTED` or `UNPROTECTED` enter the totals. -/
def definedStatus (e : ApiEntity) : Bool :=
  e.status.getD "UNKNOWN" = "PROTECTED" ∨ e.status.getD "UNKNOWN" = "UNPROTECTED"

/-- An entry counted in the totals of the shares handler. -/
def countedByShares (e : ApiEntity) : Bool :=
  isNfsSmb e && definedStatus e

/-- An entry counted in the totals of the buckets handler. -/
def countedByBuckets (e : ApiEntity) : Bool :=
  isS3 e && definedStatus e

/-- An entry passing a protocol filter but excluded for lacking a defined
(`PROTECTED`/`UNPROTECTED`) status. -/
def excludedUndefined (e : ApiEntity) : Bool :=
  (isNfsSmb e || isS3 e) && !(definedStatus e)

/-- An entry excluded by both protocol filters. -/
def excludedOtherProtocol (e : ApiEntity) : Bool :=
  !(isNfsSmb e) && !(isS3 e)

/-- Trichotomy of the shared two-branch threshold comparison, for any exit
value defined by the handlers' common if-chain. -/
theorem tri_of_eq {exit : Nat} {n : Nat} {w c : Int} (hwc : w ≤ c)
    (hdef : exit = if (n : Int) ≥ c then EXIT_CRITICAL
                   else if (n : Int) ≥ w then EXIT_WARNING else EXIT_OK) :
    ((n : Int) ≥ c → exit = EXIT_CRITICAL) ∧
    (w ≤ (n : Int) ∧ (n : Int) < c → exit = EXIT_WARNING) ∧
    ((n : Int) < w → exit = EXIT_OK) := by
  subst hdef
  refine ⟨fun h => ?_, fun h => ?_, fun h => ?_⟩
  · rw [if_pos h]
  · rw [if_neg (by omega), if_pos (by omega : (n : Int) ≥ w)]
  · rw [if_neg (by omega), if_neg (by omega)]

/-- C3: `validate_thresholds` succeeds in normal mode iff
`critical >= warning >= 0`, in inverted mode iff `warning >= critical >= 0`,
and every failure is the exit code 3 (UNKNOWN). -/
theorem validate_thresholds_spec (warning critical : Int) :
    (validate_thresholds warning critical false = Except.ok true ↔
      critical ≥ warning ∧ warning ≥ 0) ∧
    (validate_thresholds warning critical true = Except.ok true ↔
      warning ≥ critical ∧ critical ≥ 0) ∧
    (∀ inverted : Bool,
      validate_thresholds warning critical inverted ≠ Except.ok true →
      validate_thresholds warning critical inverted = Except.error EXIT_UNKNOWN) := by
  refine ⟨⟨?_, ?_⟩, ⟨?_, ?_⟩, ?_⟩
  · intro h
    unfold validate_thresholds at h
    by_cases h1 : warning < 0 ∨ critical < 0
    · rw [if_pos h1] at h; exact absurd h (by simp)
    · rw [if_neg h1, if_neg Bool.false_ne_true] at h
      by_cases h2 : critical < warning
      · rw [if_pos h2] at h; exact absurd h (by simp)
      · exact ⟨by omega, by omega⟩
  · intro h
    unfold validate_thresholds
    rw [if_neg (by omega : ¬(warning < 0 ∨ critical < 0)), if_neg Bool.false_ne_true,
      if_neg (by omega : ¬critical < warning)]
  · intro h
    unfold validate_thresholds at h
    by_cases h1 : warning < 0 ∨ critical < 0
    · rw [if_pos h1] at h; exact absurd h (by simp)
    · rw [if_neg h1, if_pos rfl] at h
      by_cases h2 : critical > warning
      · rw [if_pos h2] at h; exact absurd h (by simp)
      · exact ⟨by omega, by omega⟩
  · intro h
    unfold validate_thresholds
    rw [if_neg (by omega : ¬(warning < 0 ∨ critical < 0)), if_pos rfl,
      if_neg (by omega : ¬critical > warning)]
  · intro inverted h
    unfold validate_thresholds at h ⊢
    cases inverted <;> split_ifs at h ⊢ <;> simp_all

/-- Witness for C3: the default thresholds 5/10 validate in normal mode. -/
theorem validate_thresholds_spec_witness :
    validate_thresholds 5 10 false = Except.ok true :=
  (validate_thresholds_spec 5 10).1.mpr (by norm_num)

/-- C1: a port check invoked with host, check type and port number but no
API token is rejected by argument validation with exit code 3 (UNKNOWN),
although `types_without_token` lists `port`: that exemption sits inside the
`types_without_vmtarget` branch, which `port` never reaches. -/
theorem port_without_token_rejected :
    parseArgumentsValidate ⟨none, some "192.168.1.100", some "8443", some "port"⟩ =
      Except.error EXIT_UNKNOWN ∧
    types_without_token.contains "port" = true ∧
    types_without_vmtarget.contains "port" = false :=
  ⟨rfl, rfl, rfl⟩

/-- C4: for every shape-B handler (jobs, policy-advanced, backup-validation,
shares, buckets, unassigned) with validated thresholds `w ≤ c`, the handler's
bad count `n` yields CRITICAL when `n ≥ c`, WARNING when `w ≤ n < c`, and OK
when `n < w`, both boundaries inclusive. -/
theorem shape_b_threshold_classification
    (w c : Int) (hwc : w ≤ c)
    (jobsE valE : List JobEntity) (p : PolicyRecord)
    (sharesE bucketsE : List ApiEntity)
    (vmsResp sharesResp appsResp vgsResp : Option (List ApiEntity)) :
    (((jobsFailed jobsE : Int) ≥ c → check_jobs jobsE w c = EXIT_CRITICAL) ∧
     (w ≤ (jobsFailed jobsE : Int) ∧ (jobsFailed jobsE : Int) < c →
       check_jobs jobsE w c = EXIT_WARNING) ∧
     ((jobsFailed jobsE : Int) < w → check_jobs jobsE w c = EXIT_OK)) ∧
    (((policyUncompliant p : Int) ≥ c → check_policy_advanced p w c = EXIT_CRITICAL) ∧
     (w ≤ (policyUncompliant p : Int) ∧ (policyUncompliant p : Int) < c →
       check_policy_advanced p w c = EXIT_WARNING) ∧
     ((policyUncompliant p : Int) < w → check_policy_advanced p w c = EXIT_OK)) ∧
    (((validationFailed valE : Int) ≥ c → check_backup_validation valE w c = EXIT_CRITICAL) ∧
     (w ≤ (validationFailed valE : Int) ∧ (validationFailed valE : Int) < c →
       check_backup_validation valE w c = EXIT_WARNING) ∧
     ((validationFailed valE : Int) < w → check_backup_validation valE w c = EXIT_OK)) ∧
    ((((sharesStats sharesE).non_compliant : Int) ≥ c → check_shares sharesE w c = EXIT_CRITICAL) ∧
     (w ≤ ((sharesStats sharesE).non_compliant : Int) ∧
        ((sharesStats sharesE).non_compliant : Int) < c →
       check_shares sharesE w c = EXIT_WARNING) ∧
     (((sharesStats sharesE).non_compliant : Int) < w → check_shares sharesE w c = EXIT_OK)) ∧
    ((((bucketsStats bucketsE).non_compliant : Int) ≥ c →
       check_buckets bucketsE w c = EXIT_CRITICAL) ∧
     (w ≤ ((bucketsStats bucketsE).non_compliant : Int) ∧
        ((bucketsStats bucketsE).non_compliant : Int) < c →
       check_buckets bucketsE w c = EXIT_WARNING) ∧
     (((bucketsStats bucketsE).non_compliant : Int) < w →
       check_buckets bucketsE w c = EXIT_OK)) ∧
    (((unassignedTotal vmsResp sharesResp appsResp vgsResp : Int) ≥ c →
       (check_unassigned vmsResp sharesResp appsResp vgsResp w c).1 = EXIT_CRITICAL) ∧
     (w ≤ (unassignedTotal vmsResp sharesResp appsResp vgsResp : Int) ∧
        (unassignedTotal vmsResp sharesResp appsResp vgsResp : Int) < c →
       (check_unassigned vmsResp sharesResp appsResp vgsResp w c).1 = EXIT_WARNING) ∧
     ((unassignedTotal vmsResp sharesResp appsResp vgsResp : Int) < w →
       (check_unassigned vmsResp sharesResp appsResp vgsResp w c).1 = EXIT_OK)) :=
  ⟨tri_of_eq hwc rfl, tri_of_eq hwc rfl, tri_of_eq hwc rfl,
   tri_of_eq hwc rfl, tri_of_eq hwc rfl, tri_of_eq hwc rfl⟩

/-- Witness for C4: with thresholds 1/2, empty listings have bad count 0 and
the jobs and shares handlers answer OK. -/
theorem shape_b_threshold_classification_witness :
    check_jobs [] 1 2 = EXIT_OK ∧ check_shares [] 1 2 = EXIT_OK := by
  have h := shape_b_threshold_classification 1 2 (by norm_num) [] []
    ⟨none, none, none, none, none⟩ [] [] none none none none
  exact ⟨h.1.2.2 (by decide), h.2.2.2.1.2.2 (by decide)⟩

/-- C5: the license handler classifies `days_left ≤ critical_days` as
CRITICAL and `critical_days < days_left ≤ warning_days` as WARNING,
otherwise OK; the boundary is inclusive, so warning 30 / critical 7 with 7
days left is CRITICAL. -/
theorem license_countdown_classification
    (lic : LicenseRecord) (rest : List LicenseRecord) (warning_days critical_days : Int) :
    ((lic.daysLeft.getD 0 ≤ critical_days →
       check_license (lic :: rest) warning_days critical_days = EXIT_CRITICAL) ∧
     (critical_days < lic.daysLeft.getD 0 ∧ lic.daysLeft.getD 0 ≤ warning_days →
       check_license (lic :: rest) warning_days critical_days = EXIT_WARNING) ∧
     (critical_days < lic.daysLeft.getD 0 ∧ warning_days < lic.daysLeft.getD 0 →
       check_license (lic :: rest) warning_days critical_days = EXIT_OK)) ∧
    check_license [⟨some 7⟩] 30 7 = EXIT_CRITICAL := by
  have hred : check_license (lic :: rest) warning_days critical_days =
      if lic.daysLeft.getD 0 ≤ critical_days then EXIT_CRITICAL
      else if lic.daysLeft.getD 0 ≤ warning_days then EXIT_WARNING
      else EXIT_OK := rfl
  rw [hred]
  refine ⟨⟨fun h => ?_, fun h => ?_, fun h => ?_⟩, by decide⟩
  · rw [if_pos h]
  · rw [if_neg (by omega), if_pos h.2]
  · rw [if_neg (by omega), if_neg (by omega)]

/-- Witness for C5: a license with 7 days left against warning 30 /
critical 7 is CRITICAL, through the first branch of the theorem. -/
theorem license_countdown_classification_witness :
    check_license [⟨some 7⟩] 30 7 = EXIT_CRITICAL :=
  (license_countdown_classification ⟨some 7⟩ [] 30 7).1.1 (by norm_num)

/-- C6: with at least one backup whose latest record carries its `type`
field (read by direct index before the counters), the archive handler is
CRITICAL with label FAILED whenever at least one archive failed, OK when
none failed and at least one succeeded, and WARNING with label MISSING when
both counters are zero. -/
theorem archive_classification
    (backup_count : Nat) (hcount : 1 ≤ backup_count)
    (st vn : Option String) (ty : String) (failed okCount : Nat)
    (rest : List BackupEntity) :
    (1 ≤ failed →
      check_archive_status backup_count
          (⟨st, some ty, vn, some okCount, some failed⟩ :: rest) =
        some ⟨EXIT_CRITICAL, "FAILED", 0⟩) ∧
    (failed = 0 → 1 ≤ okCount →
      check_archive_status backup_count
          (⟨st, some ty, vn, some okCount, some failed⟩ :: rest) =
        some ⟨EXIT_OK, "OK", 2⟩) ∧
    (failed = 0 → okCount = 0 →
      check_archive_status backup_count
          (⟨st, some ty, vn, some okCount, some failed⟩ :: rest) =
        some ⟨EXIT_WARNING, "MISSING", 1⟩) := by
  have hred : check_archive_status backup_count
      (⟨st, some ty, vn, some okCount, some failed⟩ :: rest) =
      if failed ≥ 1 then some ⟨EXIT_CRITICAL, "FAILED", 0⟩
      else if okCount ≥ 1 then some ⟨EXIT_OK, "OK", 2⟩
      else some ⟨EXIT_WARNING, "MISSING", 1⟩ := by
    unfold check_archive_status
    rw [if_neg (by omega)]
    rfl
  rw [hred]
  refine ⟨fun h1 => ?_, fun h1 h2 => ?_, fun h1 h2 => ?_⟩
  · rw [if_pos h1]
  · rw [if_neg (by omega), if_pos h2]
  · rw [if_neg (by omega), if_neg (by omega)]

/-- Witness for C6: one backup whose latest record has a type field, one
failed archive and zero successful ones is CRITICAL with label FAILED. -/
theorem archive_classification_witness :
    check_archive_status 1 [⟨none, some "INCREMENTAL", none, some 0, some 1⟩] =
      some ⟨EXIT_CRITICAL, "FAILED", 0⟩ :=
  (archive_classification 1 (by norm_num) none none "INCREMENTAL" 1 0 []).1 (by norm_num)

/-- C9: after shape normalization the target handler maps health GREEN to
OK, GREY or GRAY to WARNING, RED to CRITICAL, and any other string —
including the default taken when the health field is absent — to UNKNOWN. -/
theorem target_health_mapping (data : TargetResponse) :
    ((normalizeTarget data).health = some "GREEN" →
      check_target_health data = (EXIT_OK, 2)) ∧
    (((normalizeTarget data).health = some "GREY" ∨
        (normalizeTarget data).health = some "GRAY") →
      check_target_health data = (EXIT_WARNING, 1)) ∧
    ((normalizeTarget data).health = some "RED" →
      check_target_health data = (EXIT_CRITICAL, 0)) ∧
    (∀ s, (normalizeTarget data).health = some s →
      s ≠ "GREEN" → s ≠ "GREY" → s ≠ "GRAY" → s ≠ "RED" →
      check_target_health data = (EXIT_UNKNOWN, 1)) ∧
    ((normalizeTarget data).health = none →
      check_target_health data = (EXIT_UNKNOWN, 1)) := by
  refine ⟨fun h => ?_, fun h => ?_, fun h => ?_, fun s hs h1 h2 h3 h4 => ?_, fun h => ?_⟩
  · simp [check_target_health, healthMap, h]
  · rcases h with h | h <;> simp [check_target_health, healthMap, h]
  · simp [check_target_health, healthMap, h]
  · simp [check_target_health, healthMap, hs, h1, h2, h3, h4]
  · simp [check_target_health, healthMap, h]

/-- Witness for C9: a response without a health field (and without an
entities array) yields UNKNOWN with metric 1. -/
theorem target_health_mapping_witness :
    check_target_health ⟨none, none, none⟩ = (EXIT_UNKNOWN, 1) :=
  (target_health_mapping ⟨none, none, none⟩).2.2.2.2 rfl

/-- C10: with at least one backup, a latest-backup status outside
OK/WARNING/FATAL makes the vm check exit UNKNOWN while reporting the numeric
metric 1, the same value the trailer reports for a WARNING status. -/
theorem vm_backup_unknown_status_metric
    (backup_count : Nat) (hcount : 1 ≤ backup_count)
    (s t : String) (vn : Option String) (oa fa : Option Nat) (rest : List BackupEntity)
    (h1 : s ≠ "OK") (h2 : s ≠ "WARNING") (h3 : s ≠ "FATAL") :
    check_vm_backup backup_count (⟨some s, some t, vn, oa, fa⟩ :: rest) =
      some (EXIT_UNKNOWN, 1) ∧
    statusMapVm "WARNING" = (EXIT_WARNING, 1) := by
  constructor
  · have hred : check_vm_backup backup_count (⟨some s, some t, vn, oa, fa⟩ :: rest) =
        some (statusMapVm s) := by
      unfold check_vm_backup
      rw [if_neg (by omega)]
    rw [hred]
    simp [statusMapVm, h1, h2, h3]
  · rfl

/-- Witness for C10: one backup whose latest status is the unmapped string
DELETED yields exit UNKNOWN with metric value 1. -/
theorem vm_backup_unknown_status_metric_witness :
    check_vm_backup 1 [⟨some "DELETED", some "INCREMENTAL", none, none, none⟩] =
      some (EXIT_UNKNOWN, 1) :=
  (vm_backup_unknown_status_metric 1 (by norm_num) "DELETED" "INCREMENTAL"
    none none none [] (by decide) (by decide) (by decide)).1

/-- Scanning the updated map finds the updated binding at an existing key. -/
theorem find_map_update (k v : String) :
    ∀ d : List (String × String), d.any (fun p => p.1 = k) = true →
      (d.map (fun p => if p.1 = k then (k, v) else p)).find? (fun p => p.1 = k) =
        some (k, v) := by
  intro d
  induction d with
  | nil => intro h; simp at h
  | cons p ps ih =>
      intro h
      rw [List.any_cons] at h
      by_cases hp : p.1 = k
      · simp [hp]
      · rcases Bool.or_eq_true_iff.mp h with hc | hc
        · exact absurd (of_decide_eq_true hc) hp
        · simp only [List.map_cons, if_neg hp]
          rw [List.find?_cons_of_neg _ (by simp [hp])]
          exact ih hc

/-- Appending a fresh binding makes it findable when the key was absent. -/
theorem find_append_fresh (k v : String) :
    ∀ d : List (String × String), d.any (fun p => p.1 = k) = false →
      (d ++ [(k, v)]).find? (fun p => p.1 = k) = some (k, v) := by
  intro d
  induction d with
  | nil =>
      intro h
      rw [List.nil_append, List.find?_cons_of_pos _ (by simp)]
  | cons p ps ih =>
      intro h
      rw [List.any_cons] at h
      obtain ⟨h1, h2⟩ := Bool.or_eq_false_iff.mp h
      rw [List.cons_append, List.find?_cons_of_neg _ (by simp only [h1]; exact Bool.false_ne_true)]
      exact ih h2

/-- The key just inserted maps to the value just inserted. -/
theorem dictGet_dictInsert_self (d : List (String × String)) (k v : String) :
    dictGet (dictInsert d k v) k = some v := by
  unfold dictGet dictInsert
  by_cases h : d.any (fun p => p.1 = k)
  · rw [if_pos h, find_map_update k v d h]
    rfl
  · rw [if_neg h, find_append_fresh k v d (Bool.eq_false_iff.mpr h)]
    rfl

/-- Building the mapping commutes with appending one more listing entry. -/
theorem buildEntityDict_append (es : List (String × String)) (k v : String) :
    buildEntityDict (es ++ [(k, v)]) = dictInsert (buildEntityDict es) k v := by
  unfold buildEntityDict
  rw [List.foldl_append]
  rfl

/-- C7 counterexample: in the listing `[("Abc", "u1"), ("abc", "")]` the
query `abc` has an exact-name match in the mapping whose identifier is the
empty string, yet resolution returns `u1` — the Python truthiness guard
makes an empty exact-match identifier fall through to the case-insensitive
scan, contradicting the claimed exact-match-first rule. -/
theorem entity_resolution_counterexample :
    dictGet (buildEntityDict [("Abc", "u1"), ("abc", "")]) "abc" = some "" ∧
    get_entity_uuid [("Abc", "u1"), ("abc", "")] "abc" = some "u1" :=
  ⟨rfl, rfl⟩

/-- C7 amended: resolution returns the exact-name match's identifier when
one exists and is non-empty; otherwise (no exact match, or an empty
exact-match identifier) it returns the first case-insensitive match in the
mapping's iteration order, or none; duplicate names in the listing
overwrite earlier ones, last-wins. -/
theorem entity_resolution_amended (entities : List (String × String)) (name : String) :
    (∀ u, dictGet (buildEntityDict entities) name = some u → u ≠ "" →
      get_entity_uuid entities name = some u) ∧
    ((dictGet (buildEntityDict entities) name = none ∨
        dictGet (buildEntityDict entities) name = some "") →
      get_entity_uuid entities name = ciScan (buildEntityDict entities) (strLower name)) ∧
    (∀ k v, dictGet (buildEntityDict (entities ++ [(k, v)])) k = some v) := by
  have hz : get_entity_uuid entities name =
      match dictGet (buildEntityDict entities) name with
      | some uuid => if uuid ≠ "" then some uuid
                     else ciScan (buildEntityDict entities) (strLower name)
      | none => ciScan (buildEntityDict entities) (strLower name) := rfl
  refine ⟨fun u hu hne => ?_, fun h => ?_, fun k v => ?_⟩
  · rw [hz, hu]
    simp [hne]
  · rcases h with h | h
    · rw [hz, h]
    · rw [hz, h]
      simp
  · rw [buildEntityDict_append]
    exact dictGet_dictInsert_self _ k v

/-- Witness for C7 (amended): an exact-name match with the non-empty
identifier `u-123` is returned as-is. -/
theorem entity_resolution_amended_witness :
    get_entity_uuid [("VM-01", "u-123")] "VM-01" = some "u-123" :=
  (entity_resolution_amended [("VM-01", "u-123")] "VM-01").1 "u-123" rfl (by decide)

/-- The status-counting step raises `total` by one exactly on defined
(`PROTECTED`/`UNPROTECTED`) statuses. -/
theorem countShareStatus_total (s : ShareStats) (e : ApiEntity) :
    (countShareStatus s e).total = s.total + (if definedStatus e then 1 else 0) := by
  unfold countShareStatus
  by_cases h1 : e.status.getD "UNKNOWN" = "PROTECTED"
  · have hd : definedStatus e = true := by simp [definedStatus, h1]
    rw [if_pos h1]
    simp only [hd, if_true]
    split_ifs <;> rfl
  · rw [if_neg h1]
    by_cases h2 : e.status.getD "UNKNOWN" = "UNPROTECTED"
    · have hd : definedStatus e = true := by simp [definedStatus, h2]
      rw [if_pos h2]
      simp [hd]
    · have hd : definedStatus e = false := by simp [definedStatus, h1, h2]
      rw [if_neg h2]
      simp [hd]

/-- The shares loop counts an entry in `total` iff it is NFS/SMB-tagged with
a defined status. -/
theorem countShare_total (s : ShareStats) (e : ApiEntity) :
    (countShare s e).total = s.total + (if countedByShares e then 1 else 0) := by
  unfold countShare countedByShares
  by_cases h : isNfsSmb e
  · rw [if_pos h, countShareStatus_total]
    simp [h]
  · rw [if_neg h]
    simp [h]

/-- The buckets loop counts an entry in `total` iff it is S3-tagged with a
defined status. -/
theorem countBucket_total (s : ShareStats) (e : ApiEntity) :
    (countBucket s e).total = s.total + (if countedByBuckets e then 1 else 0) := by
  unfold countBucket countedByBuckets
  by_cases h : isS3 e
  · rw [if_pos h, countShareStatus_total]
    simp [h]
  · rw [if_neg h]
    simp [h]

/-- Folding the shares loop counts exactly the `countedByShares` entries. -/
theorem foldl_countShare_total (es : List ApiEntity) :
    ∀ s : ShareStats, (es.foldl countShare s).total =
      s.total + (es.filter countedByShares).length := by
  induction es with
  | nil => intro s; simp
  | cons e es ih =>
      intro s
      rw [List.foldl_cons, ih, countShare_total, List.filter_cons]
      by_cases h : countedByShares e
      · simp only [h, if_pos, List.length_cons]
        omega
      · simp [h]

/-- Folding the buckets loop counts exactly the `countedByBuckets` entries. -/
theorem foldl_countBucket_total (es : List ApiEntity) :
    ∀ s : ShareStats, (es.foldl countBucket s).total =
      s.total + (es.filter countedByBuckets).length := by
  induction es with
  | nil => intro s; simp
  | cons e es ih =>
      intro s
      rw [List.foldl_cons, ih, countBucket_total, List.filter_cons]
      by_cases h : countedByBuckets e
      · simp only [h, if_pos, List.length_cons]
        omega
      · simp [h]

/-- C2 counterexample: a listing entry tagged with both NFS and S3 and
status PROTECTED is counted in the totals of BOTH the shares handler and the
buckets handler, so the two domains are not disjoint and the claimed
four-way partition fails. -/
theorem shares_buckets_overlap_counterexample :
    (sharesStats [⟨some ["NFS", "S3"], some "PROTECTED", some "GREEN",
        none, none, none, none⟩]).total = 1 ∧
    (bucketsStats [⟨some ["NFS", "S3"], some "PROTECTED", some "GREEN",
        none, none, none, none⟩]).total = 1 ∧
    countedByShares ⟨some ["NFS", "S3"], some "PROTECTED", some "GREEN",
        none, none, none, none⟩ = true ∧
    countedByBuckets ⟨some ["NFS", "S3"], some "PROTECTED", some "GREEN",
        none, none, none, none⟩ = true := by
  refine ⟨rfl, rfl, rfl, rfl⟩

/-- C2 amended: the shares handler counts exactly the NFS/SMB-tagged entries
with defined status and the buckets handler exactly the S3-tagged ones; for
every entry not tagged with both an NFS/SMB protocol and S3, exactly one of
the four classes (shares-domain, buckets-domain, excluded-undefined,
excluded-other-protocol) holds, so the two domains are disjoint on such
entries. -/
theorem shares_buckets_partition_amended (es : List ApiEntity) (e : ApiEntity)
    (h : ¬(isNfsSmb e = true ∧ isS3 e = true)) :
    (sharesStats es).total = (es.filter countedByShares).length ∧
    (bucketsStats es).total = (es.filter countedByBuckets).length ∧
    [countedByShares e, countedByBuckets e, excludedUndefined e,
      excludedOtherProtocol e].count true = 1 := by
  refine ⟨?_, ?_, ?_⟩
  · simpa [sharesStats] using foldl_countShare_total es ⟨0, 0, 0, 0, 0⟩
  · simpa [bucketsStats] using foldl_countBucket_total es ⟨0, 0, 0, 0, 0⟩
  · unfold countedByShares countedByBuckets excludedUndefined excludedOtherProtocol
    cases hn : isNfsSmb e <;> cases hs : isS3 e <;> cases hd : definedStatus e <;>
      simp_all [List.count]

/-- Witness for C2 (amended): an entry with no protocol tags falls in the
excluded-other-protocol class and in no other. -/
theorem shares_buckets_partition_amended_witness :
    [countedByShares ⟨none, none, none, none, none, none, none⟩,
     countedByBuckets ⟨none, none, none, none, none, none, none⟩,
     excludedUndefined ⟨none, none, none, none, none, none, none⟩,
     excludedOtherProtocol ⟨none, none, none, none, none, none, none⟩].count true = 1 :=
  (shares_buckets_partition_amended []
    ⟨none, none, none, none, none, none, none⟩ (by decide)).2.2

/-- C8: every sub-listing fetch of the unassigned handler is independently
fault-tolerant — a failed fetch contributes zero without aborting — and in
particular when the VM listing call fails while the shares, applications and
volume-group calls succeed, the handler still produces a severity with a VM
contribution of 0 and the other contributions intact (the buckets count then
comes from the still-available shares listing). -/
theorem unassigned_fault_tolerance
    (sharesL appsL vgsL : List ApiEntity)
    (vmsResp sharesResp appsResp vgsResp : Option (List ApiEntity)) (w c : Int) :
    ((check_unassigned none (some sharesL) (some appsL) (some vgsL) w c).2 =
        ⟨0, countUnassignedShares sharesL, countUnassignedBuckets sharesL,
         countUnassignedPlain appsL, countUnassignedPlain vgsL⟩ ∧
     ((check_unassigned none (some sharesL) (some appsL) (some vgsL) w c).1 = EXIT_OK ∨
      (check_unassigned none (some sharesL) (some appsL) (some vgsL) w c).1 = EXIT_WARNING ∨
      (check_unassigned none (some sharesL) (some appsL) (some vgsL) w c).1 = EXIT_CRITICAL)) ∧
    ((vmsResp = none → (unassignedStats vmsResp sharesResp appsResp vgsResp).vms = 0) ∧
     (sharesResp = none → (unassignedStats vmsResp sharesResp appsResp vgsResp).shares = 0) ∧
     (appsResp = none → (unassignedStats vmsResp sharesResp appsResp vgsResp).apps = 0) ∧
     (vgsResp = none → (unassignedStats vmsResp sharesResp appsResp vgsResp).vgs = 0)) := by
  refine ⟨⟨rfl, ?_⟩, fun h => by subst h; rfl, fun h => by subst h; rfl,
    fun h => by subst h; rfl, fun h => by subst h; rfl⟩
  have hz : (check_unassigned none (some sharesL) (some appsL) (some vgsL) w c).1 =
      if ((unassignedTotal none (some sharesL) (some appsL) (some vgsL)) : Int) ≥ c
        then EXIT_CRITICAL
      else if ((unassignedTotal none (some sharesL) (some appsL) (some vgsL)) : Int) ≥ w
        then EXIT_WARNING
      else EXIT_OK := rfl
  rw [hz]
  split_ifs <;> simp

/-- Witness for C8: with a failed VM fetch and empty successful listings the
VM contribution is zero. -/
theorem unassigned_fault_tolerance_witness :
    (unassignedStats none (some []) (some []) (some [])).vms = 0 :=
  (unassigned_fault_tolerance [] [] [] none (some []) (some []) (some []) 1 2).2.1 rfl

end Hycu
